import Mathlib

/-!
Verification of the MusselCounter run orchestrator.

This file gives a shallow embedding of the run-orchestration core of the
MusselCounter backend (run registry, count resolver, threshold
recalculation, manual-override endpoint, batch scheduler) and proves or
refutes the stated properties about it.

Conventions of the embedding:
* SQL tables become Lean lists of records; an SQL `UPDATE ... WHERE` becomes
  a `List.map` that rewrites the matching rows, an `INSERT` an append, and
  an `INSERT OR REPLACE` an upsert.
* Floating-point confidences and thresholds become rationals.
* Timestamps become natural-number ticks supplied by the caller.
* The filesystem check `Path(p).exists()` becomes a boolean flag carried on
  the image row; the polygon JSON artifacts become an association list from
  path to file content held in the database state.
* Model inference (the Model Execution Gateway) is a function parameter
  returning `Except`; each invocation bumps a `gateway_calls` counter in
  the state so that "no inference happened" is expressible.
-/

namespace MusselCounter

/-- One raw model detection as produced by inference: a polygon dict with a
confidence, a class label, a bounding box and coordinates. -/
structure Polygon where
  confidence : ℚ
  cls : String
  bbox : List ℚ
  coords : List (ℚ × ℚ)
  deriving Repr, DecidableEq

/-- Per-image inference result returned by the gateway
(`run_yolo_inference_batch` / `run_rcnn_inference_batch` element). -/
structure InferResult where
  polygons : List Polygon
  image_width : Nat
  image_height : Nat
  deriving Repr, DecidableEq

/-- A row of the `detection` table.  `cls` is the `class` column: `none`
models SQL NULL (automatic mode), `some c` a manual override. -/
structure Detection where
  detection_id : Nat
  run_id : Nat
  image_id : Nat
  confidence : ℚ
  original_class : String
  cls : Option String
  bbox_x1 : Option ℚ
  bbox_y1 : Option ℚ
  bbox_x2 : Option ℚ
  bbox_y2 : Option ℚ
  polygon_coords : List (ℚ × ℚ)
  created_at : Nat
  deriving Repr, DecidableEq

/-- A row of the `run` table. -/
structure Run where
  run_id : Nat
  collection_id : Nat
  model_id : Nat
  threshold : ℚ
  status : String
  total_images : Nat
  processed_count : Nat
  live_mussel_count : Nat
  error_msg : Option String
  started_at : Nat
  finished_at : Option Nat
  deriving Repr, DecidableEq

/-- A row of the `image_result` table. -/
structure ImageResult where
  run_id : Nat
  image_id : Nat
  live_mussel_count : Nat
  dead_mussel_count : Nat
  polygon_path : Option String
  processed_at : Nat
  error_msg : Option String
  deriving Repr, DecidableEq

/-- A row of the `image` table joined with what the scheduler needs.
`file_exists` models `Path(stored_path).exists()`. -/
structure ImageRow where
  image_id : Nat
  filename : String
  stored_path : Option String
  file_exists : Bool
  width : Option Nat
  height : Option Nat
  deriving Repr, DecidableEq

/-- One polygon entry inside a polygon JSON artifact file.  `original_class`
is `none` when the key is absent from the JSON dict; `manually_edited`
is `false` when that key is absent. -/
structure PolyEntry where
  cls : String
  confidence : ℚ
  original_class : Option String
  manually_edited : Bool
  deriving Repr, DecidableEq

/-- Content of one polygon JSON artifact file. -/
structure PolyFile where
  polygons : List PolyEntry
  live_count : Nat
  dead_count : Nat
  threshold : ℚ
  image_width : Nat
  image_height : Nat
  deriving Repr, DecidableEq

/-- A row of the `collection` table (only the fields the orchestrator
touches). -/
structure Collection where
  collection_id : Nat
  live_mussel_count : Nat
  updated_at : Nat
  deriving Repr, DecidableEq

/-- The persistent state: the SQLite database plus the polygon artifact
directory and an instrumentation counter for gateway invocations. -/
structure Db where
  runs : List Run
  collections : List Collection
  images : List ImageRow
  detections : List Detection
  image_results : List ImageResult
  polygon_files : List (String × PolyFile)
  next_detection_id : Nat
  gateway_calls : Nat
  deriving Repr, DecidableEq

/-- Decidable equality for gateway results. -/
instance exceptDecEq {ε α : Type} [DecidableEq ε] [DecidableEq α] :
    DecidableEq (Except ε α) := fun a b =>
  match a, b with
  | .error x, .error y =>
    match decEq x y with
    | isTrue h => isTrue (by rw [h])
    | isFalse h => isFalse (by intro hh; injection hh; contradiction)
  | .error _, .ok _ => isFalse (by intro hh; exact Except.noConfusion hh)
  | .ok _, .error _ => isFalse (by intro hh; exact Except.noConfusion hh)
  | .ok x, .ok y =>
    match decEq x y with
    | isTrue h => isTrue (by rw [h])
    | isFalse h => isFalse (by intro hh; injection hh; contradiction)

/-! ## Count Resolver

Embedding of the SQL counting query shared by `_get_counts_from_db`
(`backend/utils/run_utils/image_processor.py`), the recalculation endpoint
(`backend/api/routers/collections.py`) and the override endpoint
(`backend/api/routers/images.py`):

  CASE WHEN class = 'live' THEN 1
       WHEN class IS NULL AND confidence >= ? AND original_class = 'live' THEN 1
       ELSE 0 END
-/

/-- The live CASE expression of the counting SQL, per detection row. -/
def liveCase (threshold : ℚ) (d : Detection) : Nat :=
  if d.cls = some "live" then 1
  else if d.cls = none ∧ d.confidence ≥ threshold ∧ d.original_class = "live" then 1
  else 0

/-- The dead CASE expression of the counting SQL, per detection row. -/
def deadCase (threshold : ℚ) (d : Detection) : Nat :=
  if d.cls = some "dead" then 1
  else if d.cls = none ∧ d.confidence ≥ threshold ∧ d.original_class = "dead" then 1
  else 0

/-- `WHERE run_id = ? AND image_id = ?` on the detection table. -/
def detectionsFor (dets : List Detection) (run_id image_id : Nat) : List Detection :=
  dets.filter (fun d => d.run_id == run_id && d.image_id == image_id)

/-- `_get_counts_from_db`: the SUMs of the two CASE expressions over the
detections of one (run, image). -/
def getCountsFromDb (dets : List Detection) (run_id image_id : Nat) (threshold : ℚ) :
    Nat × Nat :=
  ((detectionsFor dets run_id image_id).foldl (fun acc d => acc + liveCase threshold d) 0,
   (detectionsFor dets run_id image_id).foldl (fun acc d => acc + deadCase threshold d) 0)

/-- Modelled from the spec's wording of the Count Resolver (section 4.5):
the effective class of a detection is its manual override when set,
otherwise its original class when the confidence reaches the threshold,
otherwise nothing.  Used to compare the SQL counting logic against the
spec. -/
def effectiveClass (threshold : ℚ) (d : Detection) : Option String :=
  match d.cls with
  | some c => some c
  | none => if d.confidence ≥ threshold then some d.original_class else none

/-! ## Run Registry (`backend/utils/run_utils/db.py`) -/

/-- `update_run_status` applied to one run row: always sets `status`, sets
`error_msg` only when a message is supplied, and sets `finished_at` only
when the new status is `completed`, `failed` or `completed_with_errors`. -/
def update_run_status (now : Nat) (status : String) (error_msg : Option String) (r : Run) :
    Run :=
  let r1 := { r with status := status }
  let r2 := match error_msg with
    | some m => { r1 with error_msg := some m }
    | none => r1
  if status = "completed" ∨ status = "failed" ∨ status = "completed_with_errors" then
    { r2 with finished_at := some now }
  else r2

/-- `update_run_status` as the SQL `UPDATE run ... WHERE run_id = ?`. -/
def dbUpdateRunStatus (now : Nat) (run_id : Nat) (status : String)
    (error_msg : Option String) (db : Db) : Db :=
  { db with runs := db.runs.map (fun r =>
      if r.run_id == run_id then update_run_status now status error_msg r else r) }

/-- The WHERE clause of `get_or_create_run`'s lookup:
`collection_id = ? AND model_id = ? AND ABS(threshold - ?) < 0.001`. -/
def runKeyMatch (collection_id model_id : Nat) (threshold : ℚ) (r : Run) : Bool :=
  r.collection_id == collection_id && r.model_id == model_id &&
    decide (|r.threshold - threshold| < mkRat 1 1000)

/-- The fresh `pending` row inserted by `get_or_create_run` (unlisted
columns take their schema defaults). -/
def newRun (now : Nat) (collection_id model_id : Nat) (threshold : ℚ) (run_id : Nat) :
    Run :=
  { run_id := run_id
    collection_id := collection_id
    model_id := model_id
    threshold := threshold
    status := "pending"
    total_images := 0
    processed_count := 0
    live_mussel_count := 0
    error_msg := none
    started_at := now
    finished_at := none }

/-- `get_or_create_run`: look up the (collection, model, threshold) key
within tolerance 0.001; if found and not currently pending/running, reset
it to pending with a fresh `started_at`; if found and active, return it
unchanged; otherwise insert a new pending row with id `next_id`.
Returns the new runs table, the run id and the `was_created` flag. -/
def get_or_create_run (now : Nat) (runs : List Run) (collection_id model_id : Nat)
    (threshold : ℚ) (next_id : Nat) : List Run × Nat × Bool :=
  match runs.find? (runKeyMatch collection_id model_id threshold) with
  | some r =>
    if r.status = "pending" ∨ r.status = "running" then (runs, r.run_id, false)
    else
      (runs.map (fun q =>
          if q.run_id == r.run_id then { q with status := "pending", started_at := now }
          else q),
       r.run_id, false)
  | none => (runs ++ [newRun now collection_id model_id threshold next_id], next_id, true)

/-! ## Stop endpoint (`backend/api/routers/runs.py`, `stop_run_endpoint`) -/

/-- Outcome of an API call, mirroring FastAPI's HTTPException vs a JSON
response. -/
inductive ApiOutcome (α : Type) where
  | ok (value : α)
  | httpError (status_code : Nat) (detail : String)
  deriving Repr, DecidableEq

/-- `stop_run_endpoint`: 404 when the run does not exist; 400 (the
InvalidStateTransition signal) when its status is not pending/running,
leaving the state untouched; otherwise set the status to `cancelled` with
message "Run cancelled by user" and return the updated row. -/
def stop_run_endpoint (now : Nat) (db : Db) (run_id : Nat) : Db × ApiOutcome Run :=
  match db.runs.find? (fun r => r.run_id == run_id) with
  | none => (db, .httpError 404 "Run not found")
  | some r =>
    if r.status ≠ "pending" ∧ r.status ≠ "running" then
      (db, .httpError 400 ("Cannot stop run with status '" ++ r.status ++
        "'. Only pending or running runs can be stopped."))
    else
      let db' := dbUpdateRunStatus now run_id "cancelled" (some "Run cancelled by user") db
      match db'.runs.find? (fun r => r.run_id == run_id) with
      | none => (db', .httpError 500 "Failed to update run")
      | some updated => (db', .ok updated)

/-! ## Override endpoint (`backend/api/routers/images.py`,
`update_polygon_classification`) -/

/-- Insertion step of the `ORDER BY detection_id` embedding. -/
def insertByDetId (d : Detection) : List Detection → List Detection
  | [] => [d]
  | e :: es =>
    if d.detection_id ≤ e.detection_id then d :: e :: es else e :: insertByDetId d es

/-- `ORDER BY detection_id`: stable sort of detection rows by id. -/
def sortByDetId : List Detection → List Detection
  | [] => []
  | d :: ds => insertByDetId d (sortByDetId ds)

/-- The detection selected by
`WHERE image_id = ? AND run_id = ? ORDER BY detection_id LIMIT 1 OFFSET ?`. -/
def selectDetection (dets : List Detection) (image_id run_id polygon_index : Nat) :
    Option Detection :=
  (sortByDetId (dets.filter (fun d => d.image_id == image_id && d.run_id == run_id))).get?
    polygon_index

/-- The backward-compatibility edit of one entry of the polygon JSON file:
set its class, then either add the manual-edit markers (when no
`original_class` key is present) or drop them when the new class reverts
to the recorded original. -/
def updatePolyEntry (new_class old_class : String) (e : PolyEntry) : PolyEntry :=
  let e1 := { e with cls := new_class }
  match e1.original_class with
  | none => { e1 with original_class := some old_class, manually_edited := true }
  | some oc =>
    if new_class = oc then { e1 with manually_edited := false, original_class := none }
    else e1

/-- The polygon JSON file rewrite: when the index is in range, update that
entry and recount the file's live/dead tallies from the entry classes;
otherwise the file is not rewritten. -/
def updatePolyFile (idx : Nat) (new_class old_class : String) (f : PolyFile) : PolyFile :=
  if h : idx < f.polygons.length then
    let entries := f.polygons.set idx
      (updatePolyEntry new_class old_class (f.polygons.get ⟨idx, h⟩))
    { f with
        polygons := entries
        live_count := entries.countP (fun p => p.cls == "live")
        dead_count := entries.countP (fun p => p.cls == "dead") }
  else f

/-- The polygon artifact rewrite of the override endpoint: locate the
image result's `polygon_path`, and when that file exists rewrite it with
`updatePolyFile`. -/
def updatePolygonArtifact (db : Db) (image_id run_id idx : Nat)
    (new_class old_class : String) : Db :=
  match db.image_results.find? (fun ir => ir.image_id == image_id && ir.run_id == run_id) with
  | none => db
  | some ir =>
    match ir.polygon_path with
    | none => db
    | some path =>
      match db.polygon_files.find? (fun pf => pf.1 == path) with
      | none => db
      | some _ =>
        { db with polygon_files := db.polygon_files.map (fun pf =>
            if pf.1 == path then (pf.1, updatePolyFile idx new_class old_class pf.2)
            else pf) }

/-- Result payload of the override endpoint's success branch. -/
structure OverrideUpdated where
  polygon_index : Nat
  detection_id : Nat
  old_class : String
  new_class : String
  live_count : Nat
  dead_count : Nat
  total_live : Nat
  total_dead : Nat
  deriving Repr, DecidableEq

/-- Responses of the override endpoint. -/
inductive OverrideOutcome where
  | badRequest (detail : String)
  | notFound (detail : String)
  | unchanged (polygon_index : Nat)
  | updated (payload : OverrideUpdated)
  deriving Repr, DecidableEq

/-- `SUM(live_mussel_count)` and `SUM(dead_mussel_count)` over the image
results of one run. -/
def runResultTotals (results : List ImageResult) (run_id : Nat) : Nat × Nat :=
  ((results.filter (fun ir => ir.run_id == run_id)).foldl
      (fun acc ir => acc + ir.live_mussel_count) 0,
   (results.filter (fun ir => ir.run_id == run_id)).foldl
      (fun acc ir => acc + ir.dead_mussel_count) 0)

/-- `update_polygon_classification`: validate the class, select the
detection at `polygon_index`, return early when the effective class is
already the requested one, otherwise store the override (NULL when it
equals the original class), rewrite the polygon artifact, recount the
image from the detection table at the run's threshold, rewrite the image
result row and the run's aggregate live total. -/
def update_polygon_classification (now : Nat) (db : Db) (image_id run_id polygon_index : Nat)
    (new_class : String) : Db × OverrideOutcome :=
  if new_class ≠ "live" ∧ new_class ≠ "dead" then
    (db, .badRequest "Classification must be 'live' or 'dead'")
  else
    match selectDetection db.detections image_id run_id polygon_index with
    | none => (db, .notFound "Detection not found")
    | some det =>
      let old_class := match det.cls with
        | some c => c
        | none => det.original_class
      if old_class = new_class then (db, .unchanged polygon_index)
      else
        let detections' := db.detections.map (fun d =>
          if d.detection_id == det.detection_id then
            { d with cls := if new_class = det.original_class then none else some new_class }
          else d)
        let db1 := { db with detections := detections' }
        let db2 := updatePolygonArtifact db1 image_id run_id polygon_index new_class old_class
        let threshold := match db2.runs.find? (fun r => r.run_id == run_id) with
          | some r => r.threshold
          | none => mkRat 1 2
        let counts := getCountsFromDb db2.detections run_id image_id threshold
        let results' := db2.image_results.map (fun ir =>
          if ir.image_id == image_id && ir.run_id == run_id then
            { ir with
                live_mussel_count := counts.1
                dead_mussel_count := counts.2
                processed_at := now }
          else ir)
        let totals := runResultTotals results' run_id
        let runs' := db2.runs.map (fun r =>
          if r.run_id == run_id then { r with live_mussel_count := totals.1 } else r)
        ({ db2 with image_results := results', runs := runs' },
         .updated
          { polygon_index := polygon_index
            detection_id := det.detection_id
            old_class := old_class
            new_class := new_class
            live_count := counts.1
            dead_count := counts.2
            total_live := totals.1
            total_dead := totals.2 })

/-- Modelled from the spec: the detection store as it would be had no
override ever been set on the detection with the given id (detections are
created with a NULL `class`, so "never overridden" means `class` NULL). -/
def withOverrideCleared (dets : List Detection) (det_id : Nat) : List Detection :=
  dets.map (fun d => if d.detection_id == det_id then { d with cls := none } else d)

/-! ## Threshold recalculation (`backend/api/routers/collections.py`,
`recalculate_threshold_endpoint`) -/

/-- The images produced by `GROUP BY image_id` over
`SELECT ... FROM detection WHERE run_id = ?`: the distinct image ids that
have detection rows under the run. -/
def imagesWithDetections (dets : List Detection) (run_id : Nat) : List Nat :=
  ((dets.filter (fun d => d.run_id == run_id)).map (fun d => d.image_id)).dedup

/-- The endpoint's running `live_total`: the sum of the per-image live
counts over the grouped rows. -/
def recalcLiveTotal (dets : List Detection) (run_id : Nat) (threshold : ℚ) : Nat :=
  (imagesWithDetections dets run_id).foldl
    (fun acc i => acc + (getCountsFromDb dets run_id i threshold).1) 0

/-- The endpoint's running `dead_total`. -/
def recalcDeadTotal (dets : List Detection) (run_id : Nat) (threshold : ℚ) : Nat :=
  (imagesWithDetections dets run_id).foldl
    (fun acc i => acc + (getCountsFromDb dets run_id i threshold).2) 0

/-- Core of `recalculate_threshold_endpoint` once the run is resolved:
recount every image that has detection rows under the run at the new
threshold, rewrite those images' `image_result` rows, and store the new
threshold and aggregate live total on the same run row.  Returns the new
state together with the per-image counts and the totals of the JSON
response. -/
def recalculate_threshold (now : Nat) (db : Db) (run_id : Nat) (threshold : ℚ) :
    Db × (List (Nat × Nat × Nat) × Nat × Nat) :=
  let imgs := imagesWithDetections db.detections run_id
  let rows := imgs.map (fun i =>
    (i, (getCountsFromDb db.detections run_id i threshold).1,
        (getCountsFromDb db.detections run_id i threshold).2))
  let live_total := recalcLiveTotal db.detections run_id threshold
  let dead_total := recalcDeadTotal db.detections run_id threshold
  let results' := db.image_results.map (fun ir =>
    if ir.run_id == run_id && imgs.contains ir.image_id then
      { ir with
          live_mussel_count := (getCountsFromDb db.detections run_id ir.image_id threshold).1
          dead_mussel_count := (getCountsFromDb db.detections run_id ir.image_id threshold).2
          processed_at := now }
    else ir)
  let runs' := db.runs.map (fun r =>
    if r.run_id == run_id then { r with threshold := threshold, live_mussel_count := live_total }
    else r)
  ({ db with runs := runs', image_results := results' }, (rows, live_total, dead_total))

/-! ## Batch scheduler (`backend/utils/run_utils/collection_processor.py` and
`backend/utils/run_utils/image_processor.py`)

The inference gateway is passed in as `inferB` (batch) / `infer1` (single
image); a call bumps `gateway_calls`.  Batches and single images are
processed in completion order, which with the default semaphore size of 1
is submission order; the order is taken as given by the input lists. -/

/-- Whether `hay` starts with `needle` (character lists). -/
def listStartsWith : List Char → List Char → Bool
  | _, [] => true
  | [], _ :: _ => false
  | a :: as, b :: bs => a == b && listStartsWith as bs

/-- Whether `needle` occurs inside `hay`, as Python's `in` on strings. -/
def listHasSub : List Char → List Char → Bool
  | hay, needle =>
    if listStartsWith hay needle then true
    else
      match hay with
      | [] => false
      | _ :: t => listHasSub t needle

/-- Python's `str.lower()` restricted to what model-type strings need. -/
def strLower (s : String) : String :=
  String.mk (s.toList.map Char.toLower)

/-- `'rcnn' in model_type.lower() or 'faster' in ... or 'yolo' in ...`. -/
def useBatchInference (model_type : String) : Bool :=
  listHasSub (strLower model_type).toList "rcnn".toList ||
  listHasSub (strLower model_type).toList "faster".toList ||
  listHasSub (strLower model_type).toList "yolo".toList

/-- Fuelled slicing loop of the batch partition; the fuel is the list
length, which bounds the number of slices. -/
def chunkBatchesAux (batch_size : Nat) : Nat → List ImageRow → List (List ImageRow)
  | 0, _ => []
  | _, [] => []
  | fuel + 1, x :: xs =>
    (x :: xs.take (batch_size - 1)) ::
      chunkBatchesAux batch_size fuel (xs.drop (batch_size - 1))

/-- `[images[i:i+batch_size] for i in range(0, len(images), batch_size)]`
for a positive batch size. -/
def chunkBatches (batch_size : Nat) (images : List ImageRow) : List (List ImageRow) :=
  chunkBatchesAux batch_size images.length images

/-- `INSERT OR REPLACE INTO image_result` (the table's primary key is
`(run_id, image_id)`). -/
def upsertImageResult (row : ImageResult) (results : List ImageResult) : List ImageResult :=
  if results.any (fun ir => ir.run_id == row.run_id && ir.image_id == row.image_id) then
    results.map (fun ir =>
      if ir.run_id == row.run_id && ir.image_id == row.image_id then row else ir)
  else results ++ [row]

/-- The polygon artifact path `data/polygons/<image_id>.json`. -/
def polyPath (image_id : Nat) : String :=
  "data/polygons/" ++ toString image_id ++ ".json"

/-- The polygon JSON file written after inference: all polygons plus the
threshold-filtered counts. -/
def mkPolyFile (result : InferResult) (live dead : Nat) (threshold : ℚ) : PolyFile :=
  { polygons := result.polygons.map (fun p =>
      { cls := p.cls, confidence := p.confidence, original_class := none,
        manually_edited := false })
    live_count := live
    dead_count := dead
    threshold := threshold
    image_width := result.image_width
    image_height := result.image_height }

/-- Write (or overwrite) a polygon artifact file. -/
def writePolygonFile (path : String) (f : PolyFile) (db : Db) : Db :=
  if db.polygon_files.any (fun pf => pf.1 == path) then
    { db with polygon_files := db.polygon_files.map (fun pf =>
        if pf.1 == path then (path, f) else pf) }
  else { db with polygon_files := db.polygon_files ++ [(path, f)] }

/-- One detection row built from a raw polygon (`_save_detections_to_db`):
the model's label becomes `original_class`, `class` starts NULL, the bbox
components are taken positionally when present. -/
def mkDetection (run_id image_id now det_id : Nat) (p : Polygon) : Detection :=
  { detection_id := det_id
    run_id := run_id
    image_id := image_id
    confidence := p.confidence
    original_class := p.cls
    cls := none
    bbox_x1 := p.bbox.get? 0
    bbox_y1 := p.bbox.get? 1
    bbox_x2 := p.bbox.get? 2
    bbox_y2 := p.bbox.get? 3
    polygon_coords := p.coords
    created_at := now }

/-- `_save_detections_to_db`: append one detection row per polygon of the
result; nothing is written when the result has no polygons. -/
def saveDetectionsToDb (now run_id image_id : Nat) (result : InferResult) (db : Db) : Db :=
  if result.polygons.isEmpty then db
  else
    { db with
        detections := db.detections ++ result.polygons.enum.map (fun ip =>
          mkDetection run_id image_id now (db.next_detection_id + ip.1) ip.2)
        next_detection_id := db.next_detection_id + result.polygons.length }

/-- `_record_error`: upsert a failed image result (zero counts, error
message) and return the failure tuple. -/
def recordError (now run_id image_id : Nat) (message : String) (db : Db) :
    Db × (Nat × Bool × Nat × Nat) :=
  let row : ImageResult :=
    { run_id := run_id, image_id := image_id, live_mussel_count := 0,
      dead_mussel_count := 0, polygon_path := none, processed_at := now,
      error_msg := some message }
  ({ db with image_results := upsertImageResult row db.image_results },
   (image_id, false, 0, 0))

/-- `UPDATE image SET width = ?, height = ? WHERE image_id = ?`. -/
def dbSetImageDims (image_id width height : Nat) (db : Db) : Db :=
  { db with images := db.images.map (fun img =>
      if img.image_id == image_id then { img with width := some width, height := some height }
      else img) }

/-- `UPDATE run SET processed_count = ? WHERE run_id = ?`. -/
def dbSetProcessedCount (run_id n : Nat) (db : Db) : Db :=
  { db with runs := db.runs.map (fun r =>
      if r.run_id == run_id then { r with processed_count := n } else r) }

/-- `process_image_for_run` (single-image path): record an error when the
file is missing or inference raises; otherwise save all detections, count
at the run's threshold, write the polygon artifact, update the image
dimensions and upsert the image result. -/
def process_image_for_run (infer1 : String → Except String InferResult)
    (now run_id : Nat) (threshold : ℚ) (img : ImageRow) (db : Db) :
    Db × (Nat × Bool × Nat × Nat) :=
  let path := match img.stored_path with
    | some p => p
    | none => "unknown"
  if !img.file_exists then
    recordError now run_id img.image_id ("Image file not found: " ++ path) db
  else
    let db := { db with gateway_calls := db.gateway_calls + 1 }
    match infer1 path with
    | .error e => recordError now run_id img.image_id ("Inference error: " ++ e) db
    | .ok result =>
      let db := saveDetectionsToDb now run_id img.image_id result db
      let counts := getCountsFromDb db.detections run_id img.image_id threshold
      let wrote := !result.polygons.isEmpty
      let db :=
        if wrote then
          writePolygonFile (polyPath img.image_id)
            (mkPolyFile result counts.1 counts.2 threshold) db
        else db
      let db := dbSetImageDims img.image_id result.image_width result.image_height db
      let row : ImageResult :=
        { run_id := run_id, image_id := img.image_id, live_mussel_count := counts.1,
          dead_mussel_count := counts.2,
          polygon_path := if wrote then some (polyPath img.image_id) else none,
          processed_at := now, error_msg := none }
      let db := { db with image_results := upsertImageResult row db.image_results }
      (db, (img.image_id, true, counts.1, counts.2))

/-- One row of the `updates` list a batch task hands to the persistence
step: counts, artifact path, timestamp, dimensions and image id. -/
structure UpdateRow where
  live : Nat
  dead : Nat
  polygon_path : Option String
  processed_at : Nat
  image_width : Nat
  image_height : Nat
  image_id : Nat
  deriving Repr, DecidableEq

/-- Per-image body of `process_batch_of_images` after inference succeeded:
save detections, count at the run's threshold, write the artifact, build
the batch-result tuple and the update row. -/
def processBatchImage (now run_id : Nat) (threshold : ℚ)
    (acc : Db × List (Nat × Bool × Nat × Nat) × List UpdateRow)
    (p : ImageRow × InferResult) : Db × List (Nat × Bool × Nat × Nat) × List UpdateRow :=
  let db := acc.1
  let img := p.1
  let result := p.2
  let db := saveDetectionsToDb now run_id img.image_id result db
  let counts := getCountsFromDb db.detections run_id img.image_id threshold
  let wrote := !result.polygons.isEmpty
  let db :=
    if wrote then
      writePolygonFile (polyPath img.image_id)
        (mkPolyFile result counts.1 counts.2 threshold) db
    else db
  (db,
   acc.2.1 ++ [(img.image_id, true, counts.1, counts.2)],
   acc.2.2 ++ [{ live := counts.1, dead := counts.2,
                 polygon_path := if wrote then some (polyPath img.image_id) else none,
                 processed_at := now, image_width := result.image_width,
                 image_height := result.image_height, image_id := img.image_id }])

/-- `process_batch_of_images`: keep only the images whose stored path
exists, infer the whole batch (an inference exception propagates as
`.error`), then process each image of the batch. -/
def process_batch_of_images (inferB : List String → Except String (List InferResult))
    (now run_id : Nat) (threshold : ℚ) (batch : List ImageRow) (db : Db) :
    Db × Except String (List (Nat × Bool × Nat × Nat) × List UpdateRow) :=
  let image_data := batch.filter (fun img => img.stored_path.isSome && img.file_exists)
  if image_data.isEmpty then (db, .ok ([], []))
  else
    let paths := image_data.map (fun img => match img.stored_path with
      | some p => p
      | none => "")
    let db := { db with gateway_calls := db.gateway_calls + 1 }
    match inferB paths with
    | .error e => (db, .error e)
    | .ok results =>
      let folded := (image_data.zip results).foldl (processBatchImage now run_id threshold)
        (db, [], [])
      (folded.1, .ok (folded.2.1, folded.2.2))

/-- The persistence step run as each batch completes: update the image
dimensions, `INSERT` the batch's image-result rows, and write
`processed_count = <completed so far> + images_already_done`. -/
def persistBatch (run_id : Nat) (progress : Nat) (updates : List UpdateRow) (db : Db) : Db :=
  if updates.isEmpty then dbSetProcessedCount run_id progress db
  else
    let db := updates.foldl
      (fun acc u => dbSetImageDims u.image_id u.image_width u.image_height acc) db
    let db := { db with image_results := db.image_results ++ updates.map (fun u =>
        { run_id := run_id, image_id := u.image_id, live_mussel_count := u.live,
          dead_mussel_count := u.dead, polygon_path := u.polygon_path,
          processed_at := u.processed_at, error_msg := none }) }
    dbSetProcessedCount run_id progress db

/-- `_process_batch_inference`'s completion loop: process the batches in
completion order, persisting after each one; a batch exception is
re-raised, leaving the results of earlier batches persisted.  `acc` is the
local `processed_count` accumulator (images completed so far in this
invocation). -/
def process_batches (inferB : List String → Except String (List InferResult))
    (now run_id : Nat) (threshold : ℚ) (images_already_done : Nat) :
    List (List ImageRow) → Nat → Db → Db × Except String (List (Nat × Bool × Nat × Nat))
  | [], _, db => (db, .ok [])
  | b :: bs, acc, db =>
    match process_batch_of_images inferB now run_id threshold b db with
    | (db', .error e) => (db', .error e)
    | (db', .ok (items, updates)) =>
      let acc' := acc + items.length
      let db'' := persistBatch run_id (acc' + images_already_done) updates db'
      match process_batches inferB now run_id threshold images_already_done bs acc' db'' with
      | (dbf, .ok rest) => (dbf, .ok (items ++ rest))
      | (dbf, .error e) => (dbf, .error e)

/-- `_process_single_images`'s completion loop: process images one at a
time; after each completion write `processed_count = <completed so far>`
(note: without adding the images already done before this invocation). -/
def process_single_images (infer1 : String → Except String InferResult)
    (now run_id : Nat) (threshold : ℚ) :
    List ImageRow → Nat → Db → Db × List (Nat × Bool × Nat × Nat)
  | [], _, db => (db, [])
  | img :: rest, k, db =>
    let step := process_image_for_run infer1 now run_id threshold img db
    let db1 := dbSetProcessedCount run_id (k + 1) step.1
    let tail := process_single_images infer1 now run_id threshold rest (k + 1) db1
    (tail.1, step.2 :: tail.2)

/-! ## Orchestration (`process_collection_run` and its helpers) -/

/-- `_prepare_images`: all collection images (as listed by the collection
store), the set of image ids that already have an `image_result` row for
this run, and the work set of remaining images.  `none` models the
"collection has no images" case. -/
def prepare_images (db : Db) (all_images : List ImageRow) (run_id : Nat) :
    Option (List ImageRow × Nat × Nat) :=
  if all_images.isEmpty then none
  else
    let already := ((db.image_results.filter (fun ir => ir.run_id == run_id)).map
      (fun ir => ir.image_id)).dedup
    let todo := all_images.filter (fun img => !(already.contains img.image_id))
    some (todo, all_images.length, already.length)

/-- `UPDATE run SET total_images = ?, processed_count = ? WHERE run_id = ?`
used to initialize a (possibly resumed) run before scheduling. -/
def dbInitProgress (run_id total already : Nat) (db : Db) : Db :=
  { db with runs := db.runs.map (fun r =>
      if r.run_id == run_id then { r with total_images := total, processed_count := already }
      else r) }

/-- `SUM(live_mussel_count)` over one run's image results. -/
def sumRunLive (results : List ImageResult) (run_id : Nat) : Nat :=
  (results.filter (fun ir => ir.run_id == run_id)).foldl
    (fun acc ir => acc + ir.live_mussel_count) 0

/-- `UPDATE collection SET live_mussel_count = ? WHERE collection_id = ?`. -/
def dbSetCollectionLive (collection_id n now : Nat) (db : Db) : Db :=
  { db with collections := db.collections.map (fun c =>
      if c.collection_id == collection_id then
        { c with live_mussel_count := n, updated_at := now }
      else c) }

/-- `_handle_all_images_processed`: re-derive the aggregate live total from
the existing image results, mark the run `completed` with full progress
counters, and push the total to the collection rollup. -/
def handle_all_images_processed (now run_id collection_id total_images : Nat) (db : Db) :
    Db :=
  let total_live := sumRunLive db.image_results run_id
  let db := { db with runs := db.runs.map (fun r =>
      if r.run_id == run_id then
        { r with status := "completed", finished_at := some now,
                 total_images := total_images, processed_count := total_images,
                 live_mussel_count := total_live }
      else r) }
  dbSetCollectionLive collection_id total_live now db

/-- `_finalize_run`: sum the live counts over all of the run's image
results, set `total_images` to this invocation's work plus the images that
were already done, choose `completed` or `completed_with_errors` by
comparing this invocation's successes with this invocation's work, stamp
`finished_at`, and push the aggregate to the collection rollup. -/
def finalize_run (now run_id collection_id : Nat)
    (results : List (Nat × Bool × Nat × Nat))
    (images_processed_in_this_run images_already_done : Nat) (db : Db) : Db :=
  let successful_images := (results.filter (fun r => r.2.1)).length
  let total_live := sumRunLive db.image_results run_id
  let total_expected := images_processed_in_this_run + images_already_done
  let final_status :=
    if successful_images == images_processed_in_this_run then "completed"
    else "completed_with_errors"
  let db := { db with runs := db.runs.map (fun r =>
      if r.run_id == run_id then
        { r with total_images := total_expected, live_mussel_count := total_live,
                 status := final_status, finished_at := some now }
      else r) }
  dbSetCollectionLive collection_id total_live now db

/-- `process_collection_run`, after the model has been loaded (model
loading and its failure modes are outside the claims proved here): set the
run `running`, prepare the work set, handle the fully-cached case,
initialize the progress counters, process by batches or single images
according to the model type, and finalize.  An exception escaping the
batch path is caught by the outer handler: the run is failed with the
exception's message, then the recovery path re-checks whether every image
has a result row and if so marks the run completed after all. -/
def process_collection_run (inferB : List String → Except String (List InferResult))
    (infer1 : String → Except String InferResult) (now : Nat) (db : Db) (run_id : Nat)
    (all_images : List ImageRow) (model_type : String) (batch_size : Nat) : Db :=
  match db.runs.find? (fun r => r.run_id == run_id) with
  | none => dbUpdateRunStatus now run_id "failed" (some "Run not found in database") db
  | some run =>
    let collection_id := run.collection_id
    let threshold := run.threshold
    let db1 := dbUpdateRunStatus now run_id "running" none db
    match prepare_images db1 all_images run_id with
    | none => dbUpdateRunStatus now run_id "failed" (some "No images found in collection") db1
    | some (todo, total_images, images_already_done) =>
      if todo.isEmpty then handle_all_images_processed now run_id collection_id total_images db1
      else
        let db2 := dbInitProgress run_id total_images images_already_done db1
        if useBatchInference model_type then
          match process_batches inferB now run_id threshold images_already_done
              (chunkBatches batch_size todo) 0 db2 with
          | (db3, .ok results) =>
            finalize_run now run_id collection_id results todo.length images_already_done db3
          | (db3, .error e) =>
            let db4 := dbUpdateRunStatus now run_id "failed"
              (some ("Run processing error: " ++ e)) db3
            match db4.runs.find? (fun r => r.run_id == run_id) with
            | none => db4
            | some run2 =>
              match prepare_images db4 all_images run_id with
              | none => db4
              | some (todo2, total2, _) =>
                if todo2.isEmpty then
                  handle_all_images_processed now run_id run2.collection_id total2 db4
                else db4
        else
          let stepped := process_single_images infer1 now run_id threshold todo 0 db2
          finalize_run now run_id collection_id stepped.2 todo.length images_already_done
            stepped.1

/-! ## Helper lemmas -/

/-- The live CASE of the counting SQL is the indicator of the spec's
effective class being "live". -/
theorem liveCase_eq_indicator (t : ℚ) (d : Detection) :
    liveCase t d = if effectiveClass t d = some "live" then 1 else 0 := by
  unfold liveCase effectiveClass
  cases h : d.cls with
  | some c =>
    by_cases hc : c = "live" <;> simp [hc]
  | none =>
    by_cases hconf : d.confidence ≥ t
    · by_cases horig : d.original_class = "live" <;> simp [hconf, horig]
    · simp [hconf]

/-- The dead CASE of the counting SQL is the indicator of the spec's
effective class being "dead". -/
theorem deadCase_eq_indicator (t : ℚ) (d : Detection) :
    deadCase t d = if effectiveClass t d = some "dead" then 1 else 0 := by
  unfold deadCase effectiveClass
  cases h : d.cls with
  | some c =>
    by_cases hc : c = "dead" <;> simp [hc]
  | none =>
    by_cases hconf : d.confidence ≥ t
    · by_cases horig : d.original_class = "dead" <;> simp [hconf, horig]
    · simp [hconf]

/-- Summing an indicator function with `foldl` counts the satisfying
elements. -/
theorem foldl_add_indicator (f : Detection → Nat) (p : Detection → Bool)
    (hfp : ∀ d, f d = if p d then 1 else 0) :
    ∀ (l : List Detection) (n : Nat),
      l.foldl (fun acc d => acc + f d) n = n + l.countP p := by
  intro l
  induction l with
  | nil => intro n; simp
  | cons d ds ih =>
    intro n
    rw [List.foldl_cons, ih, List.countP_cons, hfp d]
    by_cases h : p d = true <;> simp [h] <;> omega

/-- The SUM of the live CASE equals the count of detections whose
effective class is "live". -/
theorem getCounts_fst_eq_countP (dets : List Detection) (run_id image_id : Nat) (t : ℚ) :
    (getCountsFromDb dets run_id image_id t).1 =
      (detectionsFor dets run_id image_id).countP
        (fun d => effectiveClass t d == some "live") := by
  unfold getCountsFromDb
  rw [foldl_add_indicator (liveCase t) (fun d => effectiveClass t d == some "live")]
  · simp
  · intro d
    rw [liveCase_eq_indicator]
    by_cases h : effectiveClass t d = some "live" <;> simp [h]

/-- The SUM of the dead CASE equals the count of detections whose
effective class is "dead". -/
theorem getCounts_snd_eq_countP (dets : List Detection) (run_id image_id : Nat) (t : ℚ) :
    (getCountsFromDb dets run_id image_id t).2 =
      (detectionsFor dets run_id image_id).countP
        (fun d => effectiveClass t d == some "dead") := by
  unfold getCountsFromDb
  rw [foldl_add_indicator (deadCase t) (fun d => effectiveClass t d == some "dead")]
  · simp
  · intro d
    rw [deadCase_eq_indicator]
    by_cases h : effectiveClass t d = some "dead" <;> simp [h]

/-! ## Claims -/

/-- C1: for every run, image and threshold in [0,1], the resolved
(live_count, dead_count) pair counts each detection of the (run, image) by
its effective class: live iff the override is "live", or the override is
NULL and the confidence reaches the threshold and the original class is
"live" (symmetrically for dead); in particular a detection with an
override set has that override as its effective class for every
confidence and every threshold. -/
theorem C1_counts_resolve_by_effective_class (dets : List Detection)
    (run_id image_id : Nat) (threshold : ℚ)
    (h0 : 0 ≤ threshold) (h1 : threshold ≤ 1) :
    getCountsFromDb dets run_id image_id threshold =
      ((detectionsFor dets run_id image_id).countP
          (fun d => effectiveClass threshold d == some "live"),
       (detectionsFor dets run_id image_id).countP
          (fun d => effectiveClass threshold d == some "dead")) ∧
      ∀ d : Detection, ∀ c : String, d.cls = some c →
        effectiveClass threshold d = some c := by
  refine ⟨?_, ?_⟩
  · rw [Prod.ext_iff]
    exact ⟨getCounts_fst_eq_countP dets run_id image_id threshold,
           getCounts_snd_eq_countP dets run_id image_id threshold⟩
  · intro d c hc
    unfold effectiveClass
    rw [hc]

/-- A detection with confidence 0.1, original class "dead" and a manual
override "live", as in the spec's override-precedence example. -/
def exampleOverriddenDet : Detection :=
  { detection_id := 1, run_id := 1, image_id := 1, confidence := mkRat 1 10,
    original_class := "dead", cls := some "live", bbox_x1 := none, bbox_y1 := none,
    bbox_x2 := none, bbox_y2 := none, polygon_coords := [], created_at := 0 }

/-- Witness for C1: at threshold 0.9 the overridden detection of
`exampleOverriddenDet` is still counted as live. -/
theorem C1_witness :
    getCountsFromDb [exampleOverriddenDet] 1 1 (mkRat 9 10) =
      ((detectionsFor [exampleOverriddenDet] 1 1).countP
          (fun d => effectiveClass (mkRat 9 10) d == some "live"),
       (detectionsFor [exampleOverriddenDet] 1 1).countP
          (fun d => effectiveClass (mkRat 9 10) d == some "dead")) ∧
    getCountsFromDb [exampleOverriddenDet] 1 1 (mkRat 9 10) = (1, 0) :=
  ⟨(C1_counts_resolve_by_effective_class [exampleOverriddenDet] 1 1 (mkRat 9 10)
      (by decide) (by decide)).1,
   by decide⟩

/-- `update_run_status` never changes the run id. -/
theorem update_run_status_run_id (now : Nat) (status : String) (msg : Option String)
    (r : Run) : (update_run_status now status msg r).run_id = r.run_id := by
  unfold update_run_status
  cases msg <;>
    by_cases h : status = "completed" ∨ status = "failed" ∨ status = "completed_with_errors" <;>
    simp [h]

/-- `update_run_status` always stores the requested status. -/
theorem update_run_status_status (now : Nat) (status : String) (msg : Option String)
    (r : Run) : (update_run_status now status msg r).status = status := by
  unfold update_run_status
  cases msg <;>
    by_cases h : status = "completed" ∨ status = "failed" ∨ status = "completed_with_errors" <;>
    simp [h]

/-- A running example run used by the concrete instances below. -/
def exampleRunningRun : Run :=
  { run_id := 1, collection_id := 1, model_id := 1, threshold := mkRat 1 2,
    status := "running", total_images := 3, processed_count := 1,
    live_mussel_count := 0, error_msg := none, started_at := 0, finished_at := none }

/-- C8 counterexample: setting the status to `cancelled` — a terminal
status per the claim — does not record a `finished_at` timestamp. -/
theorem C8_counterexample :
    (update_run_status 5 "cancelled" (some "Run cancelled by user")
        exampleRunningRun).finished_at = none ∧
    (update_run_status 5 "cancelled" (some "Run cancelled by user")
        exampleRunningRun).status = "cancelled" := by
  decide

/-- C8 (amended): `setStatus` sets `finished_at` iff the new status is
`completed`, `failed` or `completed_with_errors`; `cancelled` — like the
non-terminal `pending` and `running` — leaves `finished_at` unchanged. -/
theorem C8_finished_at_iff_completion_status (now : Nat) (status : String)
    (error_msg : Option String) (r : Run) :
    (update_run_status now status error_msg r).finished_at =
      (if status = "completed" ∨ status = "failed" ∨ status = "completed_with_errors"
       then some now else r.finished_at) ∧
    (update_run_status now status error_msg r).status = status := by
  unfold update_run_status
  cases error_msg <;>
    by_cases h : status = "completed" ∨ status = "failed" ∨ status = "completed_with_errors" <;>
    simp [h]

/-- Looking up a run id after a status update finds the updated row. -/
theorem find?_dbUpdateRunStatus (now : Nat) (run_id : Nat) (status : String)
    (msg : Option String) (db : Db) (r : Run)
    (hfind : db.runs.find? (fun q => q.run_id == run_id) = some r) :
    (dbUpdateRunStatus now run_id status msg db).runs.find?
        (fun q => q.run_id == run_id) = some (update_run_status now status msg r) := by
  unfold dbUpdateRunStatus
  rw [List.find?_map]
  have hpred : ((fun q : Run => q.run_id == run_id) ∘
      (fun q : Run => if q.run_id == run_id then update_run_status now status msg q else q)) =
      (fun q : Run => q.run_id == run_id) := by
    funext q
    by_cases h : q.run_id = run_id
    · simp [Function.comp, h, update_run_status_run_id]
    · simp [Function.comp, h]
  rw [hpred, hfind]
  have hr := List.find?_some hfind
  simp only [beq_iff_eq] at hr
  simp [hr]

/-- C7: cancelling a run succeeds, setting its status to `cancelled`, iff
the run is currently `pending` or `running`; in any other status the
endpoint answers with the invalid-state error and leaves the state —
hence every field of the run — unchanged. -/
theorem C7_cancel_iff_active (now : Nat) (db : Db) (run_id : Nat) (r : Run)
    (hfind : db.runs.find? (fun q => q.run_id == run_id) = some r) :
    ((r.status = "pending" ∨ r.status = "running") →
      ∃ upd : Run,
        stop_run_endpoint now db run_id =
          (dbUpdateRunStatus now run_id "cancelled" (some "Run cancelled by user") db,
           .ok upd) ∧ upd.status = "cancelled") ∧
    (¬(r.status = "pending" ∨ r.status = "running") →
      ∃ detail : String,
        stop_run_endpoint now db run_id = (db, .httpError 400 detail)) := by
  constructor
  · intro hactive
    refine ⟨update_run_status now "cancelled" (some "Run cancelled by user") r, ?_, ?_⟩
    · unfold stop_run_endpoint
      rw [hfind]
      dsimp only
      have hcond : ¬(r.status ≠ "pending" ∧ r.status ≠ "running") := by
        rcases hactive with h | h <;> simp [h]
      rw [if_neg hcond]
      rw [find?_dbUpdateRunStatus now run_id "cancelled"
        (some "Run cancelled by user") db r hfind]
    · exact update_run_status_status now "cancelled" (some "Run cancelled by user") r
  · intro hinactive
    refine ⟨"Cannot stop run with status '" ++ r.status ++
      "'. Only pending or running runs can be stopped.", ?_⟩
    unfold stop_run_endpoint
    rw [hfind]
    dsimp only
    have hcond : r.status ≠ "pending" ∧ r.status ≠ "running" := by
      constructor <;> intro h <;> exact hinactive (by simp [h])
    rw [if_pos hcond]

/-- Database with the single running example run. -/
def exampleDbRunning : Db :=
  { runs := [exampleRunningRun], collections := [], images := [], detections := [],
    image_results := [], polygon_files := [], next_detection_id := 1, gateway_calls := 0 }

/-- Witness for C7: stopping the running example run succeeds and yields a
`cancelled` run. -/
theorem C7_witness :
    ∃ upd : Run,
      stop_run_endpoint 7 exampleDbRunning 1 =
        (dbUpdateRunStatus 7 1 "cancelled" (some "Run cancelled by user") exampleDbRunning,
         .ok upd) ∧ upd.status = "cancelled" :=
  (C7_cancel_iff_active 7 exampleDbRunning 1 exampleRunningRun rfl).1
    (Or.inr rfl)

/-- C5: `get_or_create_run` resets a found non-active run to `pending`
with a fresh `started_at` and reports it as not created; returns a found
active (`pending`/`running`) run unchanged; and otherwise inserts a new
`pending` run whose key matches the request (threshold within the 0.001
tolerance) and reports it as created. -/
theorem C5_resolve_or_create_run (now : Nat) (runs : List Run) (cid mid : Nat)
    (t : ℚ) (nid : Nat) :
    (∀ r : Run, runs.find? (runKeyMatch cid mid t) = some r →
      ((¬(r.status = "pending" ∨ r.status = "running")) →
        get_or_create_run now runs cid mid t nid =
          (runs.map (fun q => if q.run_id == r.run_id
              then { q with status := "pending", started_at := now } else q),
           r.run_id, false)) ∧
      ((r.status = "pending" ∨ r.status = "running") →
        get_or_create_run now runs cid mid t nid = (runs, r.run_id, false))) ∧
    (runs.find? (runKeyMatch cid mid t) = none →
      get_or_create_run now runs cid mid t nid =
        (runs ++ [newRun now cid mid t nid], nid, true) ∧
      (newRun now cid mid t nid).status = "pending" ∧
      runKeyMatch cid mid t (newRun now cid mid t nid) = true) := by
  constructor
  · intro r hfind
    constructor
    · intro hterm
      unfold get_or_create_run
      rw [hfind]
      dsimp only
      rw [if_neg hterm]
    · intro hactive
      unfold get_or_create_run
      rw [hfind]
      dsimp only
      rw [if_pos hactive]
  · intro hnone
    refine ⟨?_, rfl, ?_⟩
    · unfold get_or_create_run
      rw [hnone]
    · unfold runKeyMatch newRun
      simp only [beq_self_eq_true, Bool.true_and, Bool.and_eq_true, decide_eq_true_eq,
        sub_self, abs_zero]
      decide

/-- Mapping a function that fixes every element of a list is the
identity. -/
theorem map_eq_self_of {α : Type} (l : List α) (f : α → α) (h : ∀ x ∈ l, f x = x) :
    l.map f = l := by
  induction l with
  | nil => rfl
  | cons a t ih =>
    simp only [List.map_cons, List.cons.injEq]
    exact ⟨h a (List.mem_cons_self a t), ih (fun x hx => h x (List.mem_cons_of_mem a hx))⟩

/-- Membership through the insertion step of the detection sort. -/
theorem mem_insertByDetId (a d : Detection) (l : List Detection) :
    a ∈ insertByDetId d l ↔ a = d ∨ a ∈ l := by
  induction l with
  | nil => simp [insertByDetId]
  | cons e es ih =>
    unfold insertByDetId
    by_cases h : d.detection_id ≤ e.detection_id
    · simp [h]
    · simp [h, ih]
      tauto

/-- The `ORDER BY detection_id` sort preserves membership. -/
theorem mem_sortByDetId (a : Detection) (l : List Detection) :
    a ∈ sortByDetId l ↔ a ∈ l := by
  induction l with
  | nil => simp [sortByDetId]
  | cons d ds ih =>
    unfold sortByDetId
    rw [mem_insertByDetId, ih]
    simp

/-- The detection selected by the override endpoint is a row of the
detection table. -/
theorem selectDetection_mem (dets : List Detection) (image_id run_id idx : Nat)
    (det : Detection) (hsel : selectDetection dets image_id run_id idx = some det) :
    det ∈ dets := by
  unfold selectDetection at hsel
  have hmem := List.get?_mem hsel
  rw [mem_sortByDetId] at hmem
  exact (List.mem_filter.mp hmem).1

/-- The polygon-artifact rewrite never touches the detection table. -/
theorem updatePolygonArtifact_detections (db : Db) (image_id run_id idx : Nat)
    (nc oc : String) :
    (updatePolygonArtifact db image_id run_id idx nc oc).detections = db.detections := by
  unfold updatePolygonArtifact
  split
  · rfl
  · split
    · rfl
    · split
      · rfl
      · rfl

/-- A detection row with no override is unchanged by clearing its
override. -/
theorem clear_cls_of_none (d : Detection) (h : d.cls = none) :
    { d with cls := none } = d := by
  cases d
  simp only at h
  simp [h]

/-- Witness for C5: on an empty registry a new pending run is created with
the requested key. -/
theorem C5_witness :
    get_or_create_run 3 [] 1 2 (mkRat 1 2) 10 =
      ([newRun 3 1 2 (mkRat 1 2) 10], 10, true) ∧
    (newRun 3 1 2 (mkRat 1 2) 10).status = "pending" ∧
    runKeyMatch 1 2 (mkRat 1 2) (newRun 3 1 2 (mkRat 1 2) 10) = true :=
  (C5_resolve_or_create_run 3 [] 1 2 (mkRat 1 2) 10).2 rfl

/-- C10: when the selected detection's current effective class (its manual
override when set, otherwise its original class) already equals the
requested class, the override endpoint answers "Classification unchanged"
and performs no modification at all: the detection row, the image result
counts, the run aggregates and the polygon artifact files are all left as
they were. -/
theorem C10_unchanged_request_is_noop (now : Nat) (db : Db)
    (image_id run_id polygon_index : Nat) (new_class : String) (det : Detection)
    (hvalid : new_class = "live" ∨ new_class = "dead")
    (hsel : selectDetection db.detections image_id run_id polygon_index = some det)
    (heff : (match det.cls with | some c => c | none => det.original_class) = new_class) :
    update_polygon_classification now db image_id run_id polygon_index new_class =
      (db, .unchanged polygon_index) := by
  unfold update_polygon_classification
  have hcond : ¬(new_class ≠ "live" ∧ new_class ≠ "dead") := by
    rcases hvalid with h | h <;> simp [h]
  rw [if_neg hcond, hsel]
  dsimp only
  rw [if_pos heff]

/-- An un-overridden "dead" detection used by the override-endpoint
examples. -/
def exampleAutoDeadDet : Detection :=
  { detection_id := 4, run_id := 2, image_id := 3, confidence := mkRat 7 10,
    original_class := "dead", cls := none, bbox_x1 := none, bbox_y1 := none,
    bbox_x2 := none, bbox_y2 := none, polygon_coords := [], created_at := 0 }

/-- Database with one completed run, one detection and one image result,
used by the override-endpoint examples. -/
def exampleDbOverride : Db :=
  { runs := [{ run_id := 2, collection_id := 1, model_id := 1, threshold := mkRat 1 2,
               status := "completed", total_images := 1, processed_count := 1,
               live_mussel_count := 0, error_msg := none, started_at := 0,
               finished_at := some 1 }]
    collections := [{ collection_id := 1, live_mussel_count := 0, updated_at := 0 }]
    images := []
    detections := [exampleAutoDeadDet]
    image_results := [{ run_id := 2, image_id := 3, live_mussel_count := 0,
                        dead_mussel_count := 1, polygon_path := none, processed_at := 0,
                        error_msg := none }]
    polygon_files := []
    next_detection_id := 5
    gateway_calls := 0 }

/-- Witness for C10: requesting "dead" for a detection whose effective
class is already "dead" changes nothing. -/
theorem C10_witness :
    update_polygon_classification 9 exampleDbOverride 3 2 0 "dead" =
      (exampleDbOverride, .unchanged 0) :=
  C10_unchanged_request_is_noop 9 exampleDbOverride 3 2 0 "dead" exampleAutoDeadDet
    (Or.inr rfl) rfl rfl

/-- C4: requesting a class equal to the selected detection's
`original_class` clears the override — afterwards the detection table is
exactly the table in which that detection never had an override — and
therefore the counts computed at any threshold for any (run, image) equal
the counts that would be computed had the override never been set.  The
hypotheses state the database invariants: detection ids are unique and no
stored override equals its row's original class (the endpoint never
stores such an override). -/
theorem C4_revert_to_original_clears_override (now : Nat) (db : Db)
    (image_id run_id polygon_index : Nat) (det : Detection)
    (hnodup : (db.detections.map (fun d => d.detection_id)).Nodup)
    (hnoself : ∀ d ∈ db.detections, d.cls ≠ some d.original_class)
    (hsel : selectDetection db.detections image_id run_id polygon_index = some det)
    (hvalid : det.original_class = "live" ∨ det.original_class = "dead") :
    (update_polygon_classification now db image_id run_id polygon_index
        det.original_class).1.detections =
      withOverrideCleared db.detections det.detection_id ∧
    ∀ t : ℚ, ∀ rid iid : Nat,
      getCountsFromDb (update_polygon_classification now db image_id run_id polygon_index
          det.original_class).1.detections rid iid t =
        getCountsFromDb (withOverrideCleared db.detections det.detection_id) rid iid t := by
  have hmain : (update_polygon_classification now db image_id run_id polygon_index
      det.original_class).1.detections =
      withOverrideCleared db.detections det.detection_id := by
    unfold update_polygon_classification
    have hcond : ¬(det.original_class ≠ "live" ∧ det.original_class ≠ "dead") := by
      rcases hvalid with h | h <;> simp [h]
    rw [if_neg hcond, hsel]
    dsimp only
    by_cases hold : (match det.cls with
        | some c => c
        | none => det.original_class) = det.original_class
    · rw [if_pos hold]
      have hcls : det.cls = none := by
        cases hc : det.cls with
        | none => rfl
        | some c =>
          rw [hc] at hold
          dsimp only at hold
          have hdet := hnoself det (selectDetection_mem db.detections image_id run_id
            polygon_index det hsel)
          rw [hc, hold] at hdet
          exact absurd rfl hdet
      show db.detections = withOverrideCleared db.detections det.detection_id
      unfold withOverrideCleared
      refine (map_eq_self_of db.detections _ ?_).symm
      intro d hd
      by_cases hid : d.detection_id == det.detection_id
      · have hdeq : d = det := by
          have hmemdet := selectDetection_mem db.detections image_id run_id
            polygon_index det hsel
          exact List.inj_on_of_nodup_map hnodup hd hmemdet (by simpa using hid)
        rw [if_pos hid, hdeq, clear_cls_of_none det hcls]
      · rw [if_neg (by simpa using hid)]
    · rw [if_neg hold]
      dsimp only
      rw [updatePolygonArtifact_detections]
      unfold withOverrideCleared
      refine List.map_congr_left ?_
      intro d _
      by_cases hid : d.detection_id == det.detection_id
      · simp [hid]
      · simp [hid]
  refine ⟨hmain, ?_⟩
  intro t rid iid
  rw [hmain]

/-- A detection of run 2 overridden to "live" against an original "dead",
used by the C4 witness. -/
def exampleOverriddenDeadDet : Detection :=
  { detection_id := 6, run_id := 2, image_id := 3, confidence := mkRat 3 10,
    original_class := "dead", cls := some "live", bbox_x1 := none, bbox_y1 := none,
    bbox_x2 := none, bbox_y2 := none, polygon_coords := [], created_at := 0 }

/-- Database for the C4 witness: one run, one overridden detection, one
image result. -/
def exampleDbRevert : Db :=
  { runs := [{ run_id := 2, collection_id := 1, model_id := 1, threshold := mkRat 1 2,
               status := "completed", total_images := 1, processed_count := 1,
               live_mussel_count := 1, error_msg := none, started_at := 0,
               finished_at := some 1 }]
    collections := [{ collection_id := 1, live_mussel_count := 1, updated_at := 0 }]
    images := []
    detections := [exampleOverriddenDeadDet]
    image_results := [{ run_id := 2, image_id := 3, live_mussel_count := 1,
                        dead_mussel_count := 0, polygon_path := none, processed_at := 0,
                        error_msg := none }]
    polygon_files := []
    next_detection_id := 7
    gateway_calls := 0 }

/-- Witness for C4: reverting the overridden detection to its original
"dead" stores NULL and counting matches the never-overridden table. -/
theorem C4_witness :
    (update_polygon_classification 9 exampleDbRevert 3 2 0 "dead").1.detections =
      withOverrideCleared exampleDbRevert.detections 6 ∧
    ∀ t : ℚ, ∀ rid iid : Nat,
      getCountsFromDb (update_polygon_classification 9 exampleDbRevert 3 2 0
          "dead").1.detections rid iid t =
        getCountsFromDb (withOverrideCleared exampleDbRevert.detections 6) rid iid t :=
  C4_revert_to_original_clears_override 9 exampleDbRevert 3 2 0 exampleOverriddenDeadDet
    (by decide) (by decide) rfl (Or.inr rfl)

/-- An image id is in the recalculation's GROUP BY exactly when some
detection row of the run carries it. -/
theorem mem_imagesWithDetections (dets : List Detection) (run_id iid : Nat) :
    iid ∈ imagesWithDetections dets run_id ↔
      ∃ d ∈ dets, d.run_id = run_id ∧ d.image_id = iid := by
  unfold imagesWithDetections
  rw [List.mem_dedup, List.mem_map]
  constructor
  · rintro ⟨d, hd, hi⟩
    have hf := List.mem_filter.mp hd
    exact ⟨d, hf.1, by simpa using hf.2, hi⟩
  · rintro ⟨d, hd, hrun, hi⟩
    exact ⟨d, List.mem_filter.mpr ⟨hd, by simpa using hrun⟩, hi⟩

/-- C6: threshold recalculation rewrites, in the same run row, the stored
threshold and the aggregate live total, rewrites the image-result counts
of every image that has detection rows under the run with the count
resolver's result at the new threshold, creates no run, no detection row,
and performs no model inference. -/
theorem C6_recalculate_rewrites_in_place (now : Nat) (db : Db) (run_id : Nat) (t : ℚ)
    (h0 : 0 ≤ t) (h1 : t ≤ 1)
    (hdet : ∃ d ∈ db.detections, d.run_id = run_id) :
    ((recalculate_threshold now db run_id t).1.detections = db.detections) ∧
    ((recalculate_threshold now db run_id t).1.gateway_calls = db.gateway_calls) ∧
    ((recalculate_threshold now db run_id t).1.runs.length = db.runs.length) ∧
    (∀ r ∈ db.runs, r.run_id = run_id →
      { r with threshold := t,
               live_mussel_count := recalcLiveTotal db.detections run_id t } ∈
        (recalculate_threshold now db run_id t).1.runs) ∧
    (∀ r ∈ db.runs, r.run_id ≠ run_id →
      r ∈ (recalculate_threshold now db run_id t).1.runs) ∧
    (∀ ir ∈ db.image_results, ir.run_id = run_id →
      (∃ d ∈ db.detections, d.run_id = run_id ∧ d.image_id = ir.image_id) →
      { ir with
          live_mussel_count := (detectionsFor db.detections run_id ir.image_id).countP
            (fun d => effectiveClass t d == some "live")
          dead_mussel_count := (detectionsFor db.detections run_id ir.image_id).countP
            (fun d => effectiveClass t d == some "dead")
          processed_at := now } ∈
        (recalculate_threshold now db run_id t).1.image_results) := by
  refine ⟨rfl, rfl, ?_, ?_, ?_, ?_⟩
  · show (db.runs.map _).length = db.runs.length
    rw [List.length_map]
  · intro r hr hid
    show _ ∈ db.runs.map _
    have := List.mem_map_of_mem (fun q : Run =>
      if q.run_id == run_id then
        { q with threshold := t,
                 live_mussel_count := recalcLiveTotal db.detections run_id t }
      else q) hr
    simpa [hid] using this
  · intro r hr hid
    show _ ∈ db.runs.map _
    have := List.mem_map_of_mem (fun q : Run =>
      if q.run_id == run_id then
        { q with threshold := t,
                 live_mussel_count := recalcLiveTotal db.detections run_id t }
      else q) hr
    simpa [hid] using this
  · intro ir hir hid hex
    show _ ∈ db.image_results.map _
    have hin : ir.image_id ∈ imagesWithDetections db.detections run_id :=
      (mem_imagesWithDetections db.detections run_id ir.image_id).mpr hex
    have hmem := List.mem_map_of_mem (fun q : ImageResult =>
      if q.run_id == run_id && (imagesWithDetections db.detections run_id).contains q.image_id
      then
        { q with
            live_mussel_count := (getCountsFromDb db.detections run_id q.image_id t).1
            dead_mussel_count := (getCountsFromDb db.detections run_id q.image_id t).2
            processed_at := now }
      else q) hir
    have hcontains : (imagesWithDetections db.detections run_id).contains ir.image_id = true := by
      simpa using hin
    simp only [hid, hcontains, beq_self_eq_true, Bool.and_self, if_true] at hmem
    rw [getCounts_fst_eq_countP, getCounts_snd_eq_countP] at hmem
    rw [hid]
    exact hmem

/-- Detections of the spec's recalculation scenario: image 1 has a 0.9
live detection, image 2 a 0.3 dead one, image 3 a 0.6 dead one, all under
run 1. -/
def exampleRecalcDets : List Detection :=
  [{ detection_id := 1, run_id := 1, image_id := 1, confidence := mkRat 9 10,
     original_class := "live", cls := none, bbox_x1 := none, bbox_y1 := none,
     bbox_x2 := none, bbox_y2 := none, polygon_coords := [], created_at := 0 },
   { detection_id := 2, run_id := 1, image_id := 2, confidence := mkRat 3 10,
     original_class := "dead", cls := none, bbox_x1 := none, bbox_y1 := none,
     bbox_x2 := none, bbox_y2 := none, polygon_coords := [], created_at := 0 },
   { detection_id := 3, run_id := 1, image_id := 3, confidence := mkRat 6 10,
     original_class := "dead", cls := none, bbox_x1 := none, bbox_y1 := none,
     bbox_x2 := none, bbox_y2 := none, polygon_coords := [], created_at := 0 }]

/-- Database of the spec's recalculation scenario after the original run at
threshold 0.5. -/
def exampleDbRecalc : Db :=
  { runs := [{ run_id := 1, collection_id := 1, model_id := 1, threshold := mkRat 1 2,
               status := "completed", total_images := 3, processed_count := 3,
               live_mussel_count := 1, error_msg := none, started_at := 0,
               finished_at := some 1 }]
    collections := [{ collection_id := 1, live_mussel_count := 1, updated_at := 0 }]
    images := []
    detections := exampleRecalcDets
    image_results :=
      [{ run_id := 1, image_id := 1, live_mussel_count := 1, dead_mussel_count := 0,
         polygon_path := none, processed_at := 0, error_msg := none },
       { run_id := 1, image_id := 2, live_mussel_count := 0, dead_mussel_count := 0,
         polygon_path := none, processed_at := 0, error_msg := none },
       { run_id := 1, image_id := 3, live_mussel_count := 0, dead_mussel_count := 1,
         polygon_path := none, processed_at := 0, error_msg := none }]
    polygon_files := []
    next_detection_id := 4
    gateway_calls := 0 }

/-- Witness for C6: recalculating the scenario run at threshold 0.2
touches neither the detections nor the gateway, and produces the spec's
expected totals live=1, dead=2. -/
theorem C6_witness :
    (recalculate_threshold 4 exampleDbRecalc 1 (mkRat 1 5)).1.detections =
      exampleDbRecalc.detections ∧
    (recalculate_threshold 4 exampleDbRecalc 1 (mkRat 1 5)).1.gateway_calls =
      exampleDbRecalc.gateway_calls ∧
    (recalculate_threshold 4 exampleDbRecalc 1 (mkRat 1 5)).2.2 = (1, 2) := by
  have h := C6_recalculate_rewrites_in_place 4 exampleDbRecalc 1 (mkRat 1 5)
    (by decide) (by decide)
    ⟨{ detection_id := 1, run_id := 1, image_id := 1, confidence := mkRat 9 10,
       original_class := "live", cls := none, bbox_x1 := none, bbox_y1 := none,
       bbox_x2 := none, bbox_y2 := none, polygon_coords := [], created_at := 0 },
     by decide, rfl⟩
  exact ⟨h.1, h.2.1, by decide⟩

/-- `update_run_status` with a message always stores the message. -/
theorem update_run_status_error_msg_some (now : Nat) (status : String) (m : String)
    (r : Run) : (update_run_status now status (some m) r).error_msg = some m := by
  unfold update_run_status
  by_cases h : status = "completed" ∨ status = "failed" ∨ status = "completed_with_errors" <;>
    simp [h]

/-- `update_run_status` stamps `finished_at` for the completion
statuses. -/
theorem update_run_status_finished_at_of (now : Nat) (status : String)
    (msg : Option String) (r : Run)
    (h : status = "completed" ∨ status = "failed" ∨ status = "completed_with_errors") :
    (update_run_status now status msg r).finished_at = some now := by
  unfold update_run_status
  cases msg <;> simp [h]

/-- After failing a run via the registry, every row carrying that run id
shows the failure: status `failed`, the message stored, `finished_at`
stamped. -/
theorem mem_dbUpdateRunStatus_failed (now run_id : Nat) (m : String) (db : Db) (r : Run)
    (hr : r ∈ (dbUpdateRunStatus now run_id "failed" (some m) db).runs)
    (hid : r.run_id = run_id) :
    r.status = "failed" ∧ r.error_msg = some m ∧ r.finished_at = some now := by
  unfold dbUpdateRunStatus at hr
  rw [List.mem_map] at hr
  obtain ⟨q, hq, hqr⟩ := hr
  by_cases h : q.run_id = run_id
  · rw [if_pos (by simpa using h)] at hqr
    subst hqr
    exact ⟨update_run_status_status now "failed" (some m) q,
      update_run_status_error_msg_some now "failed" m q,
      update_run_status_finished_at_of now "failed" (some m) q (Or.inr (Or.inl rfl))⟩
  · rw [if_neg (by simpa using h)] at hqr
    subst hqr
    exact absurd hid h

/-- C3 (amended): when a batch's inference call raises, the exception
propagates out of the batch scheduler and the outer handler fails the
whole run: the run transitions to `failed` with the exception's message
(instead of recording the batch's images as failed Image Results and
continuing), unless after the failure every collection image happens to
have a result row. -/
theorem C3_batch_inference_error_fails_run
    (inferB : List String → Except String (List InferResult))
    (infer1 : String → Except String InferResult) (now : Nat) (db : Db) (run_id : Nat)
    (all_images : List ImageRow) (model_type : String) (batch_size : Nat) (run : Run)
    (todo : List ImageRow) (total_images images_already_done : Nat) (db3 : Db)
    (e : String) (todo2 : List ImageRow) (total2 already2 : Nat)
    (hfind : db.runs.find? (fun r => r.run_id == run_id) = some run)
    (hprep : prepare_images (dbUpdateRunStatus now run_id "running" none db) all_images
      run_id = some (todo, total_images, images_already_done))
    (hne : todo.isEmpty = false)
    (hbatch : useBatchInference model_type = true)
    (herr : process_batches inferB now run_id run.threshold images_already_done
      (chunkBatches batch_size todo) 0
      (dbInitProgress run_id total_images images_already_done
        (dbUpdateRunStatus now run_id "running" none db)) = (db3, .error e))
    (hprep2 : prepare_images
      (dbUpdateRunStatus now run_id "failed" (some ("Run processing error: " ++ e)) db3)
      all_images run_id = some (todo2, total2, already2))
    (hne2 : todo2.isEmpty = false) :
    process_collection_run inferB infer1 now db run_id all_images model_type batch_size =
      dbUpdateRunStatus now run_id "failed" (some ("Run processing error: " ++ e)) db3 ∧
    ∀ r ∈ (dbUpdateRunStatus now run_id "failed"
        (some ("Run processing error: " ++ e)) db3).runs,
      r.run_id = run_id →
        r.status = "failed" ∧ r.error_msg = some ("Run processing error: " ++ e) ∧
        r.finished_at = some now := by
  constructor
  · unfold process_collection_run
    rw [hfind]
    dsimp only
    rw [hprep]
    dsimp only
    rw [if_neg (by simp [hne])]
    rw [if_pos hbatch]
    rw [herr]
    dsimp only
    cases hf2 : (dbUpdateRunStatus now run_id "failed"
        (some ("Run processing error: " ++ e)) db3).runs.find?
        (fun r => r.run_id == run_id) with
    | none => rfl
    | some run2 =>
      dsimp only
      rw [hprep2]
      dsimp only
      rw [if_neg (by simp [hne2])]
  · intro r hr hid
    exact mem_dbUpdateRunStatus_failed now run_id ("Run processing error: " ++ e) db3 r
      hr hid

/-- An image row whose file exists, used by the scheduler examples. -/
def exampleImageA : ImageRow :=
  { image_id := 1, filename := "a.jpg", stored_path := some "data/a.jpg",
    file_exists := true, width := none, height := none }

/-- A second image row whose file exists. -/
def exampleImageB : ImageRow :=
  { image_id := 2, filename := "b.jpg", stored_path := some "data/b.jpg",
    file_exists := true, width := none, height := none }

/-- A third image row whose file exists. -/
def exampleImageC : ImageRow :=
  { image_id := 3, filename := "c.jpg", stored_path := some "data/c.jpg",
    file_exists := true, width := none, height := none }

/-- A gateway that answers every image of the batch with an empty,
successful result. -/
def exampleEmptyInfer : List String → Except String (List InferResult) :=
  fun paths => .ok (paths.map (fun _ =>
    { polygons := [], image_width := 10, image_height := 10 }))

/-- A single-image gateway that answers with an empty, successful
result. -/
def exampleOkInfer1 : String → Except String InferResult :=
  fun _ => .ok { polygons := [], image_width := 10, image_height := 10 }

/-- A gateway whose batch inference raises. -/
def exampleFailInfer : List String → Except String (List InferResult) :=
  fun _ => .error "GPU out of memory"

/-- A pending run over collection 1 at threshold 0.5. -/
def examplePendingRun : Run :=
  { run_id := 1, collection_id := 1, model_id := 1, threshold := mkRat 1 2,
    status := "pending", total_images := 0, processed_count := 0,
    live_mussel_count := 0, error_msg := none, started_at := 0, finished_at := none }

/-- Database for the failing-batch scenario: the pending run and no
results yet. -/
def exampleDbPending : Db :=
  { runs := [examplePendingRun]
    collections := [{ collection_id := 1, live_mussel_count := 0, updated_at := 0 }]
    images := [exampleImageA]
    detections := []
    image_results := []
    polygon_files := []
    next_detection_id := 1
    gateway_calls := 0 }

/-- The state the failing batch leaves behind: the run set to running with
initialized progress, and one gateway call made. -/
def exampleDbAfterFailedBatch : Db :=
  { dbInitProgress 1 1 0 (dbUpdateRunStatus 5 1 "running" none exampleDbPending) with
      gateway_calls := 1 }

/-- C3 counterexample: with a gateway that raises on the only batch, the
run transitions to `failed` and no failed Image Result row is recorded
for the batch's image — contrary to the claim that the batch errors are
confined to failed per-image rows and the run continues. -/
theorem C3_counterexample :
    ((process_collection_run exampleFailInfer exampleOkInfer1 5 exampleDbPending 1
        [exampleImageA] "YOLO" 4).runs.map (fun r => (r.status, r.error_msg))) =
      [("failed", some "Run processing error: GPU out of memory")] ∧
    (process_collection_run exampleFailInfer exampleOkInfer1 5 exampleDbPending 1
        [exampleImageA] "YOLO" 4).image_results = [] := by
  decide

/-- Witness for C3 (amended): the failing-batch scenario satisfies every
hypothesis, and the run ends `failed` with the propagated message. -/
theorem C3_witness :
    process_collection_run exampleFailInfer exampleOkInfer1 5 exampleDbPending 1
        [exampleImageA] "YOLO" 4 =
      dbUpdateRunStatus 5 1 "failed" (some ("Run processing error: " ++ "GPU out of memory"))
        exampleDbAfterFailedBatch ∧
    ∀ r ∈ (dbUpdateRunStatus 5 1 "failed"
        (some ("Run processing error: " ++ "GPU out of memory"))
        exampleDbAfterFailedBatch).runs,
      r.run_id = 1 →
        r.status = "failed" ∧ r.error_msg = some ("Run processing error: " ++
          "GPU out of memory") ∧ r.finished_at = some 5 :=
  C3_batch_inference_error_fails_run exampleFailInfer exampleOkInfer1 5 exampleDbPending 1
    [exampleImageA] "YOLO" 4 examplePendingRun [exampleImageA] 1 0
    exampleDbAfterFailedBatch "GPU out of memory" [exampleImageA] 1 0
    (by decide) (by decide) (by decide) (by decide) (by decide) (by decide) (by decide)

/-- Database for the cancellation scenario: the run is already
`cancelled` before the scheduler starts. -/
def exampleDbCancelled : Db :=
  { runs := [{ examplePendingRun with status := "cancelled" }]
    collections := [{ collection_id := 1, live_mussel_count := 0, updated_at := 0 }]
    images := [exampleImageA, exampleImageB]
    detections := []
    image_results := []
    polygon_files := []
    next_detection_id := 1
    gateway_calls := 0 }

/-- C2 (code behaviour): the batch scheduler contains no cancellation
check — on a run whose status is already `cancelled` it still launches
every remaining batch: both batches invoke the gateway and both persist
their image results. -/
theorem C2_scheduler_ignores_cancellation :
    ((exampleDbCancelled.runs.map (fun r => r.status)) = ["cancelled"]) ∧
    (process_batches exampleEmptyInfer 5 1 (mkRat 1 2) 0
        [[exampleImageA], [exampleImageB]] 0 exampleDbCancelled).1.gateway_calls = 2 ∧
    ((process_batches exampleEmptyInfer 5 1 (mkRat 1 2) 0
        [[exampleImageA], [exampleImageB]] 0 exampleDbCancelled).1.image_results.map
      (fun ir => ir.image_id)) = [1, 2] ∧
    (process_batches exampleEmptyInfer 5 1 (mkRat 1 2) 0
        [[exampleImageA], [exampleImageB]] 0 exampleDbCancelled).2 =
      .ok [(1, true, 0, 0), (2, true, 0, 0)] := by
  decide

/-- Database for the resumed-run scenario: images 1 and 2 already have
result rows for run 1, image 3 is new. -/
def exampleDbResumed : Db :=
  { runs := [examplePendingRun]
    collections := [{ collection_id := 1, live_mussel_count := 0, updated_at := 0 }]
    images := [exampleImageA, exampleImageB, exampleImageC]
    detections := []
    image_results :=
      [{ run_id := 1, image_id := 1, live_mussel_count := 0, dead_mussel_count := 0,
         polygon_path := none, processed_at := 0, error_msg := none },
       { run_id := 1, image_id := 2, live_mussel_count := 0, dead_mussel_count := 0,
         polygon_path := none, processed_at := 0, error_msg := none }]
    polygon_files := []
    next_detection_id := 1
    gateway_calls := 0 }

/-- C9 (code behaviour): on a resumed run processed through the
single-image path, the run is first initialized with
`processed_count = images_already_done = 2`, but the per-image progress
writes use only the local completion counter, so the next persisted value
is 1 — a decrease. -/
theorem C9_single_image_progress_decreases :
    prepare_images (dbUpdateRunStatus 5 1 "running" none exampleDbResumed)
        [exampleImageA, exampleImageB, exampleImageC] 1 =
      some ([exampleImageC], 3, 2) ∧
    ((dbInitProgress 1 3 2 (dbUpdateRunStatus 5 1 "running" none
        exampleDbResumed)).runs.map (fun r => r.processed_count)) = [2] ∧
    ((process_collection_run exampleEmptyInfer exampleOkInfer1 5 exampleDbResumed 1
        [exampleImageA, exampleImageB, exampleImageC] "other" 4).runs.map
      (fun r => r.processed_count)) = [1] ∧
    (1 : Nat) < 2 := by
  decide

end MusselCounter
